import Mathlib

/-!
Verification of the per-game session coordinator of the Chess arena server.

The definitions below are a shallow embedding of the Python source:
* `chess_arena/packages/chesslib/rules.py` (interface of the rules engine),
* `chess_arena/apps/server/api/games.py` (`end_game_if_needed`, `maybe_rate`,
  `maybe_play_system_move`, the `move` route),
* `chess_arena/apps/server/services/rating_glicko2.py` (`update_after_game`),
* `chess_arena/apps/server/services/matchmaking_service.py` (`enqueue`),
* `chess_arena/apps/server/realtime/ws_hub.py` (`Hub.leave`, `Hub.broadcast`),
* `chess_arena/apps/server/db/models.py` (`Player`, `Game`, `ensure_api_key`).

The chess-rules library (python-chess) and the glicko2 library are external
collaborators of the code under verification; they enter the embedding as
abstract function parameters (`RulesEngine`, `GlickoLib`), exactly at the
call boundary the Python code uses.  Randomness (`random.random() < 0.5`,
`secrets.token_hex`) and engine move proposals are threaded in as explicit
parameters.  Database rows become records, the ORM store becomes a list of
records, and in-place mutation becomes functional update.
-/

namespace ChessArena

/-- Result record of `rules.status_flags(fen)`: one boolean per flag of the
dictionary built from the python-chess board of the given FEN.  `turn` is
`b.turn`: `true` when white is to move. -/
structure StatusFlags where
  turn : Bool
  in_check : Bool
  is_checkmate : Bool
  is_stalemate : Bool
  insufficient : Bool
  can_claim_threefold : Bool
  can_claim_fifty : Bool
  halfmove_clock : Nat
  fullmove_number : Nat
deriving Repr, DecidableEq

/-- The rules engine boundary (`chesslib/rules.py`, backed by python-chess,
an external collaborator).  `statusFlags fen` is `status_flags(fen)`; since a
board built from a fixed FEN is deterministic, the `b.turn` that
`end_game_if_needed` reads off its own board equals `(statusFlags fen).turn`.
`applyUci fen uci` is `apply_uci_move(fen, uci)`: `none` models the
`ValueError("Illegal move")` raised for a rejected move, `some (newFen, san)`
the returned new position and display SAN. -/
structure RulesEngine where
  statusFlags : String → StatusFlags
  applyUci : String → String → Option (String × String)

/-- Row of the `games` table (`db/models.py`, class `Game`). -/
structure Game where
  id : Nat
  ranked : Bool
  time_control : String
  white_id : Option Nat
  black_id : Option Nat
  fen : String
  pgn : String
  status : String
  result : Option String
  end_reason : Option String
deriving Repr, DecidableEq

/-- Row of the `players` table (`db/models.py`, class `Player`).  The float
rating fields are carried as rationals; the numeric contents only flow
through the abstract glicko2 library. -/
structure Player where
  id : Nat
  email : String
  name : String
  password_hash : String
  is_bot : Bool
  api_key : Option String
  rating : Rat
  rd : Rat
  vol : Rat
  wins : Nat
  losses : Nat
  draws : Nat
deriving Repr, DecidableEq

/-- Python truthiness of an `Optional[int]`: `None` and `0` are falsy. -/
def truthyOptNat : Option Nat → Bool
  | none => false
  | some n => n != 0

/-- Python truthiness of an `Optional[str]`: `None` and `""` are falsy. -/
def truthyOptStr : Option String → Bool
  | none => false
  | some s => s != ""

/-- `games.py`, `end_game_if_needed(db, g)`: reads the status flags of the
current position, ends the game on checkmate, stalemate or insufficient
material (in that elif order), and returns the flags dictionary.  On
checkmate the side to move is the loser: `"0-1" if b.turn else "1-0"`.
Returns the updated game row together with the returned `meta`. -/
def end_game_if_needed (E : RulesEngine) (g : Game) : Game × StatusFlags :=
  let meta := E.statusFlags g.fen
  if meta.is_checkmate then
    ({ g with status := "ended",
              result := some (if meta.turn then "0-1" else "1-0"),
              end_reason := some "checkmate" }, meta)
  else if meta.is_stalemate then
    ({ g with status := "ended",
              result := some "1/2-1/2",
              end_reason := some "stalemate" }, meta)
  else if meta.insufficient then
    ({ g with status := "ended",
              result := some "1/2-1/2",
              end_reason := some "insufficient_material" }, meta)
  else (g, meta)

theorem end_game_fen_pgn (E : RulesEngine) (g : Game) :
    (end_game_if_needed E g).1.fen = g.fen ∧ (end_game_if_needed E g).1.pgn = g.pgn := by
  unfold end_game_if_needed
  dsimp only
  split <;> [skip; split <;> [skip; split]] <;> exact ⟨rfl, rfl⟩

theorem end_game_ids (E : RulesEngine) (g : Game) :
    (end_game_if_needed E g).1.white_id = g.white_id ∧
      (end_game_if_needed E g).1.black_id = g.black_id ∧
      (end_game_if_needed E g).1.ranked = g.ranked := by
  unfold end_game_if_needed
  dsimp only
  split <;> [skip; split <;> [skip; split]] <;> exact ⟨rfl, rfl, rfl⟩

/-- C1: after a successful move application the session is ended iff the new
position is checkmate, stalemate or insufficient material (claimable
threefold or fifty-move conditions do not end it); on checkmate the result
favors the side that just moved (white to move checkmated gives "0-1", black
to move checkmated gives "1-0", reason "checkmate"), and stalemate or
insufficient material give the draw result "1/2-1/2" with the matching
reason. -/
theorem end_game_terminal_spec (E : RulesEngine) (g : Game)
    (hact : g.status = "active") :
    ((end_game_if_needed E g).1.status = "ended" ↔
      ((E.statusFlags g.fen).is_checkmate = true ∨
        (E.statusFlags g.fen).is_stalemate = true ∨
        (E.statusFlags g.fen).insufficient = true)) ∧
    ((E.statusFlags g.fen).is_checkmate = true →
      (end_game_if_needed E g).1.result =
          some (if (E.statusFlags g.fen).turn then "0-1" else "1-0") ∧
        (end_game_if_needed E g).1.end_reason = some "checkmate") ∧
    ((E.statusFlags g.fen).is_checkmate = false →
      (E.statusFlags g.fen).is_stalemate = true →
      (end_game_if_needed E g).1.result = some "1/2-1/2" ∧
        (end_game_if_needed E g).1.end_reason = some "stalemate") ∧
    ((E.statusFlags g.fen).is_checkmate = false →
      (E.statusFlags g.fen).is_stalemate = false →
      (E.statusFlags g.fen).insufficient = true →
      (end_game_if_needed E g).1.result = some "1/2-1/2" ∧
        (end_game_if_needed E g).1.end_reason = some "insufficient_material") := by
  unfold end_game_if_needed
  dsimp only
  rcases hc : (E.statusFlags g.fen).is_checkmate <;>
    rcases hs : (E.statusFlags g.fen).is_stalemate <;>
      rcases hi : (E.statusFlags g.fen).insufficient <;>
        simp [hc, hs, hi, hact]

/-- The flags of the position after `1. f3 e5 2. g4 Qh4#`: white to move,
in check, checkmated. -/
def mateFlags : StatusFlags :=
  { turn := true, in_check := true, is_checkmate := true, is_stalemate := false,
    insufficient := false, can_claim_threefold := false, can_claim_fifty := false,
    halfmove_clock := 1, fullmove_number := 3 }

/-- A rules engine fixture answering the fixed flags `f` for every position
and rejecting every move. -/
def constEngine (f : StatusFlags) : RulesEngine :=
  { statusFlags := fun _ => f, applyUci := fun _ _ => none }

/-- An active game row in the mated position after `1. f3 e5 2. g4 Qh4#`. -/
def mateGame : Game :=
  { id := 1, ranked := true, time_control := "10+0", white_id := some 1,
    black_id := some 2,
    fen := "rnb1kbnr/pppp1ppp/8/4p3/6Pq/5P2/PPPPP2P/RNBQKBNR w KQkq - 1 3",
    pgn := "f3 e5 g4 Qh4# ", status := "active", result := none,
    end_reason := none }

theorem end_game_terminal_spec_witness :
    mateGame.status = "active" ∧
    (((end_game_if_needed (constEngine mateFlags) mateGame).1.status = "ended" ↔
      (((constEngine mateFlags).statusFlags mateGame.fen).is_checkmate = true ∨
        ((constEngine mateFlags).statusFlags mateGame.fen).is_stalemate = true ∨
        ((constEngine mateFlags).statusFlags mateGame.fen).insufficient = true)) ∧
    (((constEngine mateFlags).statusFlags mateGame.fen).is_checkmate = true →
      (end_game_if_needed (constEngine mateFlags) mateGame).1.result =
          some (if ((constEngine mateFlags).statusFlags mateGame.fen).turn
                then "0-1" else "1-0") ∧
        (end_game_if_needed (constEngine mateFlags) mateGame).1.end_reason =
          some "checkmate") ∧
    (((constEngine mateFlags).statusFlags mateGame.fen).is_checkmate = false →
      ((constEngine mateFlags).statusFlags mateGame.fen).is_stalemate = true →
      (end_game_if_needed (constEngine mateFlags) mateGame).1.result = some "1/2-1/2" ∧
        (end_game_if_needed (constEngine mateFlags) mateGame).1.end_reason =
          some "stalemate") ∧
    (((constEngine mateFlags).statusFlags mateGame.fen).is_checkmate = false →
      ((constEngine mateFlags).statusFlags mateGame.fen).is_stalemate = false →
      ((constEngine mateFlags).statusFlags mateGame.fen).insufficient = true →
      (end_game_if_needed (constEngine mateFlags) mateGame).1.result = some "1/2-1/2" ∧
        (end_game_if_needed (constEngine mateFlags) mateGame).1.end_reason =
          some "insufficient_material")) :=
  ⟨rfl, end_game_terminal_spec (constEngine mateFlags) mateGame rfl⟩

/-- The glicko2 library boundary (external collaborator).  `update own opp s`
is `GPlayer.update_player` called with a one-element series: `own` is the
player's (rating, rd, vol) triple, `opp` the opponent's (rating, rd) pair,
`s` the score, and the result is the player's updated triple. -/
structure GlickoLib where
  update : Rat × Rat × Rat → Rat × Rat → Rat → Rat × Rat × Rat

/-- `rating_glicko2.py`, `update_after_game(white, black, result)`: builds a
glicko2 player per side, updates each against the other with the scores
derived from the result string, bumps the win/loss/draw counters, and writes
the updated triples back.  Note the source updates `w` first and then feeds
`w`'s already-updated rating and rd into `b`'s update; the embedding keeps
that order. -/
def update_after_game (lib : GlickoLib) (white black : Player) (result : String) :
    Player × Player :=
  let wScore : Rat := if result == "1-0" then 1 else if result == "0-1" then 0 else 1/2
  let bScore : Rat := if result == "1-0" then 0 else if result == "0-1" then 1 else 1/2
  let w1 := lib.update (white.rating, white.rd, white.vol) (black.rating, black.rd) wScore
  let b1 := lib.update (black.rating, black.rd, black.vol) (w1.1, w1.2.1) bScore
  let cw :=
    if result == "1-0" then { white with wins := white.wins + 1 }
    else if result == "0-1" then { white with losses := white.losses + 1 }
    else { white with draws := white.draws + 1 }
  let cb :=
    if result == "1-0" then { black with losses := black.losses + 1 }
    else if result == "0-1" then { black with wins := black.wins + 1 }
    else { black with draws := black.draws + 1 }
  ({ cw with rating := w1.1, rd := w1.2.1, vol := w1.2.2 },
   { cb with rating := b1.1, rd := b1.2.1, vol := b1.2.2 })

/-- `db.get(Player, pid)` over the store modelled as a list of rows. -/
def db_get_player (players : List Player) (pid : Nat) : Option Player :=
  players.find? (fun p => p.id == pid)

/-- Write one mutated ORM row back into the store (in-place mutation of the
row found by primary key). -/
def db_put_player (players : List Player) (p : Player) : List Player :=
  players.map (fun q => if q.id == p.id then p else q)

/-- The guard and lookups of `games.py`, `maybe_rate(db, g)`: the rating
update runs when the game is ranked, ended, both slots and the result are
truthy, and both rows resolve; the returned pair is the two rows as written
back. `none` means `update_after_game` was not invoked. -/
def maybe_rate_core (lib : GlickoLib) (players : List Player) (g : Game) :
    Option (Player × Player) :=
  if g.ranked && (g.status == "ended") && truthyOptNat g.white_id &&
      truthyOptNat g.black_id && truthyOptStr g.result then
    match db_get_player players (g.white_id.getD 0),
        db_get_player players (g.black_id.getD 0) with
    | some w, some b => some (update_after_game lib w b (g.result.getD ""))
    | _, _ => none
  else none

/-- `games.py`, `maybe_rate(db, g)`: the store after the call. -/
def maybe_rate (lib : GlickoLib) (players : List Player) (g : Game) : List Player :=
  match maybe_rate_core lib players g with
  | some wb => db_put_player (db_put_player players wb.1) wb.2
  | none => players

/-- C4: the rating updater runs iff the game ended, is ranked and has both
slots filled (given the call-site facts that an ended game carries a
non-empty result and that filled slots are positive ids resolving in the
store); when it runs it writes back both updated rows — incrementing the
winner's win counter and the loser's loss counter, or both draw counters on
a draw — and in every other case the player store is untouched. -/
theorem maybe_rate_spec (lib : GlickoLib) (players : List Player) (g : Game)
    (hres : g.status = "ended" → ∃ r, g.result = some r ∧ r ≠ "")
    (hw : ∀ n, g.white_id = some n → n ≠ 0 ∧ (db_get_player players n).isSome)
    (hb : ∀ n, g.black_id = some n → n ≠ 0 ∧ (db_get_player players n).isSome) :
    ((maybe_rate_core lib players g).isSome ↔
      (g.ranked = true ∧ g.status = "ended" ∧
        (∃ wn, g.white_id = some wn) ∧ ∃ bn, g.black_id = some bn)) ∧
    ((maybe_rate_core lib players g).isSome = false →
      maybe_rate lib players g = players) ∧
    (∀ wn bn w b, g.ranked = true → g.status = "ended" →
      g.white_id = some wn → g.black_id = some bn →
      db_get_player players wn = some w → db_get_player players bn = some b →
      maybe_rate lib players g =
        db_put_player
          (db_put_player players (update_after_game lib w b (g.result.getD "")).1)
          (update_after_game lib w b (g.result.getD "")).2) ∧
    (∀ w b : Player,
      ((update_after_game lib w b "1-0").1.wins = w.wins + 1 ∧
        (update_after_game lib w b "1-0").2.losses = b.losses + 1) ∧
      ((update_after_game lib w b "0-1").1.losses = w.losses + 1 ∧
        (update_after_game lib w b "0-1").2.wins = b.wins + 1) ∧
      ((update_after_game lib w b "1/2-1/2").1.draws = w.draws + 1 ∧
        (update_after_game lib w b "1/2-1/2").2.draws = b.draws + 1)) := by
  refine ⟨?_, ?_, ?_, ?_⟩
  · constructor
    · intro hsome
      unfold maybe_rate_core at hsome
      by_cases hcond : (g.ranked && (g.status == "ended") && truthyOptNat g.white_id &&
          truthyOptNat g.black_id && truthyOptStr g.result) = true
      · have h1 := hcond
        simp only [Bool.and_eq_true, beq_iff_eq] at h1
        obtain ⟨⟨⟨⟨hr, hs⟩, hwt⟩, hbt⟩, _⟩ := h1
        refine ⟨hr, hs, ?_, ?_⟩
        · cases hwid : g.white_id with
          | none => rw [hwid] at hwt; simp [truthyOptNat] at hwt
          | some n => exact ⟨n, rfl⟩
        · cases hbid : g.black_id with
          | none => rw [hbid] at hbt; simp [truthyOptNat] at hbt
          | some n => exact ⟨n, rfl⟩
      · rw [if_neg hcond] at hsome
        simp at hsome
    · rintro ⟨hr, hs, ⟨wn, hwid⟩, ⟨bn, hbid⟩⟩
      obtain ⟨wpos, wres⟩ := hw wn hwid
      obtain ⟨bpos, bres⟩ := hb bn hbid
      obtain ⟨r, hrs, hrne⟩ := hres hs
      unfold maybe_rate_core
      have hcond : (g.ranked && (g.status == "ended") && truthyOptNat g.white_id &&
          truthyOptNat g.black_id && truthyOptStr g.result) = true := by
        simp [hr, hs, hwid, hbid, hrs, truthyOptNat, truthyOptStr, wpos, bpos, hrne]
      rw [if_pos hcond]
      rw [hwid, hbid]
      simp only [Option.getD_some]
      cases hfw : db_get_player players wn with
      | none => rw [hfw] at wres; simp at wres
      | some w =>
        cases hfb : db_get_player players bn with
        | none => rw [hfb] at bres; simp at bres
        | some b => simp
  · intro hnone
    unfold maybe_rate
    cases hcore : maybe_rate_core lib players g with
    | none => rfl
    | some wb => rw [hcore] at hnone; simp at hnone
  · intro wn bn w b hr hs hwid hbid hfw hfb
    obtain ⟨wpos, _⟩ := hw wn hwid
    obtain ⟨bpos, _⟩ := hb bn hbid
    obtain ⟨r, hrs, hrne⟩ := hres hs
    have hcore : maybe_rate_core lib players g =
        some (update_after_game lib w b (g.result.getD "")) := by
      unfold maybe_rate_core
      have hcond : (g.ranked && (g.status == "ended") && truthyOptNat g.white_id &&
          truthyOptNat g.black_id && truthyOptStr g.result) = true := by
        simp [hr, hs, hwid, hbid, hrs, truthyOptNat, truthyOptStr, wpos, bpos, hrne]
      rw [if_pos hcond, hwid, hbid]
      simp only [Option.getD_some]
      rw [hfw, hfb]
    unfold maybe_rate
    rw [hcore]
  · intro w b
    refine ⟨⟨?_, ?_⟩, ⟨?_, ?_⟩, ⟨?_, ?_⟩⟩ <;> simp [update_after_game]

/-- The automated move-proposal boundary of `maybe_play_system_move`:
`stockfishMove fen` is `stockfish.best_move_uci(fen, think_ms=150)`, with
`none` modelling a raised exception; `randomMove fen` is
`_random_legal_move_uci(fen)`, returning `""` when the position has no legal
moves. -/
structure SystemMover where
  stockfishMove : String → Option String
  randomMove : String → String

/-- The mutation tail shared by the system-move step: apply the obtained
(new position, SAN) pair, run `end_game_if_needed` and `maybe_rate`. -/
def system_commit (E : RulesEngine) (lib : GlickoLib)
    (players : List Player) (g : Game) (fs : String × String) : List Player × Game :=
  let g1 := { g with fen := fs.1, pgn := g.pgn ++ fs.2 ++ " " }
  let g2 := (end_game_if_needed E g1).1
  (maybe_rate lib players g2, g2)

/-- One invocation body of `games.py`, `maybe_play_system_move(db, g)` up to
and including the commit, without the chained recursive call: `none` models
every early `return` (inactive or unfilled game, unresolvable rows, a human
to move, no move available), `some` the state after one applied bot ply.
The final `none` branch models the uncaught `ValueError` of the second
`apply_uci_move` call, which aborts the invocation before any mutation. -/
def system_ply (E : RulesEngine) (lib : GlickoLib) (sm : SystemMover)
    (players : List Player) (g : Game) : Option (List Player × Game) :=
  if g.status != "active" || !truthyOptNat g.white_id || !truthyOptNat g.black_id then
    none
  else
    match db_get_player players (g.white_id.getD 0),
        db_get_player players (g.black_id.getD 0) with
    | some white, some black =>
      let turn := (E.statusFlags g.fen).turn
      let bot_to_move := (turn && white.is_bot) || (!turn && black.is_bot)
      if !bot_to_move then none
      else
        let uci :=
          match sm.stockfishMove g.fen with
          | some u => u
          | none => sm.randomMove g.fen
        if uci == "" then none
        else
          match E.applyUci g.fen uci with
          | some fs => some (system_commit E lib players g fs)
          | none =>
            let uci2 := sm.randomMove g.fen
            if uci2 == "" then none
            else
              match E.applyUci g.fen uci2 with
              | some fs => some (system_commit E lib players g fs)
              | none => none
    | _, _ => none

/-- `games.py`, `maybe_play_system_move(db, g)`: play bot plies, rechaining
while the game stays active (the source recurses; the embedding carries
explicit fuel for the chain). -/
def maybe_play_system_move (E : RulesEngine) (lib : GlickoLib) (sm : SystemMover) :
    Nat → List Player → Game → List Player × Game
  | 0, players, g => (players, g)
  | fuel + 1, players, g =>
    match system_ply E lib sm players g with
    | none => (players, g)
    | some pg =>
      if pg.2.status == "active" then maybe_play_system_move E lib sm fuel pg.1 pg.2
      else pg

/-- Error taxonomy of the move route: HTTP 404 "Game not active", HTTP 403
"Not your turn", HTTP 400 "Illegal move". -/
inductive MoveError where
  | gameNotActive
  | notYourTurn
  | illegalMove
deriving Repr, DecidableEq

/-- The JSON payload returned (and broadcast) by the move route. -/
structure MovePayload where
  fen : String
  pgn : String
  meta : StatusFlags
  uci : String
deriving Repr, DecidableEq

/-- `games.py`, route `POST /games/game_id/move`: looks the game up, rejects
inactive games, checks that the requester owns the side to move, delegates
to `apply_uci_move`, commits the new position and appended move log, runs
the terminal check and rating update, then chains bot replies while the game
stays active.  The value is the resulting (player store, game row) state
paired with the HTTP outcome. -/
def move_route (E : RulesEngine) (lib : GlickoLib) (sm : SystemMover) (fuel : Nat)
    (players : List Player) (p_id : Nat) (gOpt : Option Game) (uci : String) :
    (List Player × Option Game) × Except MoveError MovePayload :=
  match gOpt with
  | none => ((players, none), Except.error MoveError.gameNotActive)
  | some g =>
    if g.status != "active" then ((players, some g), Except.error MoveError.gameNotActive)
    else
      let is_white_turn := (E.statusFlags g.fen).turn
      if is_white_turn && (g.white_id != some p_id) then
        ((players, some g), Except.error MoveError.notYourTurn)
      else if !is_white_turn && (g.black_id != some p_id) then
        ((players, some g), Except.error MoveError.notYourTurn)
      else
        match E.applyUci g.fen uci with
        | none => ((players, some g), Except.error MoveError.illegalMove)
        | some fs =>
          let g1 := { g with fen := fs.1, pgn := g.pgn ++ fs.2 ++ " " }
          let eg := end_game_if_needed E g1
          let g2 := eg.1
          let players2 := maybe_rate lib players g2
          let payload : MovePayload :=
            { fen := g2.fen, pgn := g2.pgn, meta := eg.2, uci := uci }
          if g2.status == "active" then
            let r := maybe_play_system_move E lib sm fuel players2 g2
            ((r.1, some r.2), Except.ok payload)
          else ((players2, some g2), Except.ok payload)

/-- A glicko2 fixture: the update returns the player's own triple unchanged. -/
def idGlicko : GlickoLib := { update := fun own _ _ => own }

/-- A human player row fixture. -/
def alice : Player :=
  { id := 1, email := "alice@x", name := "Alice", password_hash := "h1",
    is_bot := false, api_key := none, rating := 1500, rd := 350, vol := 6 / 100,
    wins := 0, losses := 0, draws := 0 }

/-- A second human player row fixture. -/
def bob : Player :=
  { id := 2, email := "bob@x", name := "Bob", password_hash := "h2",
    is_bot := false, api_key := none, rating := 1500, rd := 350, vol := 6 / 100,
    wins := 0, losses := 0, draws := 0 }

/-- A ranked game between the two fixtures that has ended in a white win. -/
def endedGame : Game :=
  { id := 7, ranked := true, time_control := "10+0", white_id := some 1,
    black_id := some 2, fen := "somefen", pgn := "e4 e5 ", status := "ended",
    result := some "1-0", end_reason := some "checkmate" }

theorem maybe_rate_spec_witness :
    (endedGame.status = "ended" → ∃ r, endedGame.result = some r ∧ r ≠ "") ∧
    (∀ n, endedGame.white_id = some n →
      n ≠ 0 ∧ (db_get_player [alice, bob] n).isSome) ∧
    (∀ n, endedGame.black_id = some n →
      n ≠ 0 ∧ (db_get_player [alice, bob] n).isSome) ∧
    (((maybe_rate_core idGlicko [alice, bob] endedGame).isSome ↔
      (endedGame.ranked = true ∧ endedGame.status = "ended" ∧
        (∃ wn, endedGame.white_id = some wn) ∧ ∃ bn, endedGame.black_id = some bn)) ∧
    ((maybe_rate_core idGlicko [alice, bob] endedGame).isSome = false →
      maybe_rate idGlicko [alice, bob] endedGame = [alice, bob]) ∧
    (∀ wn bn w b, endedGame.ranked = true → endedGame.status = "ended" →
      endedGame.white_id = some wn → endedGame.black_id = some bn →
      db_get_player [alice, bob] wn = some w → db_get_player [alice, bob] bn = some b →
      maybe_rate idGlicko [alice, bob] endedGame =
        db_put_player
          (db_put_player [alice, bob]
            (update_after_game idGlicko w b (endedGame.result.getD "")).1)
          (update_after_game idGlicko w b (endedGame.result.getD "")).2) ∧
    (∀ w b : Player,
      ((update_after_game idGlicko w b "1-0").1.wins = w.wins + 1 ∧
        (update_after_game idGlicko w b "1-0").2.losses = b.losses + 1) ∧
      ((update_after_game idGlicko w b "0-1").1.losses = w.losses + 1 ∧
        (update_after_game idGlicko w b "0-1").2.wins = b.wins + 1) ∧
      ((update_after_game idGlicko w b "1/2-1/2").1.draws = w.draws + 1 ∧
        (update_after_game idGlicko w b "1/2-1/2").2.draws = b.draws + 1))) := by
  have h1 : endedGame.status = "ended" → ∃ r, endedGame.result = some r ∧ r ≠ "" :=
    fun _ => ⟨"1-0", rfl, by decide⟩
  have h2 : ∀ n, endedGame.white_id = some n →
      n ≠ 0 ∧ (db_get_player [alice, bob] n).isSome := by
    intro n hn
    have : n = 1 := by
      have : some (1 : Nat) = some n := hn
      exact (Option.some_inj.mp this).symm
    subst this
    exact ⟨by decide, by simp [db_get_player, alice, bob]⟩
  have h3 : ∀ n, endedGame.black_id = some n →
      n ≠ 0 ∧ (db_get_player [alice, bob] n).isSome := by
    intro n hn
    have : n = 2 := by
      have : some (2 : Nat) = some n := hn
      exact (Option.some_inj.mp this).symm
    subst this
    exact ⟨by decide, by simp [db_get_player, alice, bob]⟩
  exact ⟨h1, h2, h3, maybe_rate_spec idGlicko [alice, bob] endedGame h1 h2 h3⟩

/-- C2: on an active game a move by a requester who does not own the side to
move fails with the not-your-turn error, and a move the rules engine rejects
(submitted by the rightful mover) fails with the illegal-move error; both
rejections leave the player store and the game row exactly as they were. -/
theorem move_rejections_no_mutation (E : RulesEngine) (lib : GlickoLib)
    (sm : SystemMover) (fuel : Nat) (players : List Player) (p_id : Nat)
    (g : Game) (uci : String) (hact : g.status = "active") :
    ((((E.statusFlags g.fen).turn = true ∧ g.white_id ≠ some p_id) ∨
        ((E.statusFlags g.fen).turn = false ∧ g.black_id ≠ some p_id)) →
      move_route E lib sm fuel players p_id (some g) uci =
        ((players, some g), Except.error MoveError.notYourTurn)) ∧
    (((E.statusFlags g.fen).turn = true → g.white_id = some p_id) →
      ((E.statusFlags g.fen).turn = false → g.black_id = some p_id) →
      E.applyUci g.fen uci = none →
      move_route E lib sm fuel players p_id (some g) uci =
        ((players, some g), Except.error MoveError.illegalMove)) := by
  constructor
  · rintro (⟨ht, hw⟩ | ⟨ht, hb⟩)
    · simp [move_route, hact, ht, hw]
    · simp [move_route, hact, ht, hb]
  · intro hwid hbid happ
    rcases ht : (E.statusFlags g.fen).turn
    · have hb := hbid ht
      simp [move_route, hact, ht, hb, happ]
    · have hw := hwid ht
      simp [move_route, hact, ht, hw, happ]

/-- An active game row fixture between the two player fixtures. -/
def activeGame : Game :=
  { id := 9, ranked := false, time_control := "10+0", white_id := some 1,
    black_id := some 2, fen := "startpos", pgn := "", status := "active",
    result := none, end_reason := none }

/-- Status flags of the starting position. -/
def startFlags : StatusFlags :=
  { turn := true, in_check := false, is_checkmate := false, is_stalemate := false,
    insufficient := false, can_claim_threefold := false, can_claim_fifty := false,
    halfmove_clock := 0, fullmove_number := 1 }

/-- A system-mover fixture that never proposes a move. -/
def noMover : SystemMover := { stockfishMove := fun _ => none, randomMove := fun _ => "" }

theorem move_rejections_no_mutation_witness :
    activeGame.status = "active" ∧
    ((((constEngine startFlags).statusFlags activeGame.fen).turn = true ∧
          activeGame.white_id ≠ some 5) ∨
        (((constEngine startFlags).statusFlags activeGame.fen).turn = false ∧
          activeGame.black_id ≠ some 5) →
      move_route (constEngine startFlags) idGlicko noMover 3 [alice, bob] 5
          (some activeGame) "e2e4" =
        (([alice, bob], some activeGame), Except.error MoveError.notYourTurn)) ∧
    ((((constEngine startFlags).statusFlags activeGame.fen).turn = true →
        activeGame.white_id = some 5) →
      (((constEngine startFlags).statusFlags activeGame.fen).turn = false →
        activeGame.black_id = some 5) →
      (constEngine startFlags).applyUci activeGame.fen "e2e4" = none →
      move_route (constEngine startFlags) idGlicko noMover 3 [alice, bob] 5
          (some activeGame) "e2e4" =
        (([alice, bob], some activeGame), Except.error MoveError.illegalMove)) :=
  ⟨rfl, move_rejections_no_mutation (constEngine startFlags) idGlicko noMover 3
    [alice, bob] 5 activeGame "e2e4" rfl⟩

theorem system_commit_pgn (E : RulesEngine) (lib : GlickoLib)
    (players : List Player) (g : Game) (fs : String × String) :
    (system_commit E lib players g fs).2.pgn = g.pgn ++ (fs.2 ++ " ") := by
  unfold system_commit
  dsimp only
  rw [(end_game_fen_pgn E _).2]
  exact String.append_assoc g.pgn fs.2 " "

theorem system_ply_pgn (E : RulesEngine) (lib : GlickoLib) (sm : SystemMover)
    (players : List Player) (g : Game) (pg : List Player × Game)
    (h : system_ply E lib sm players g = some pg) :
    ∃ s, pg.2.pgn = g.pgn ++ s := by
  unfold system_ply at h
  by_cases h0 : (g.status != "active" || !truthyOptNat g.white_id ||
      !truthyOptNat g.black_id) = true
  · rw [if_pos h0] at h
    cases h
  rw [if_neg h0] at h
  rcases hfw : db_get_player players (g.white_id.getD 0) with _ | white <;>
    rw [hfw] at h
  · cases h
  rcases hfb : db_get_player players (g.black_id.getD 0) with _ | black <;>
    rw [hfb] at h
  · cases h
  dsimp only at h
  split at h
  · cases h
  rcases hsf : sm.stockfishMove g.fen with _ | u <;> rw [hsf] at h <;>
    (repeat' first
      | dsimp only at h
      | split at h) <;>
    first
      | exact Option.noConfusion h
      | (injection h with h
         exact ⟨_, by rw [← h]; exact system_commit_pgn E lib players g _⟩)

theorem maybe_play_system_move_pgn (E : RulesEngine) (lib : GlickoLib)
    (sm : SystemMover) :
    ∀ fuel players g,
      ∃ s, (maybe_play_system_move E lib sm fuel players g).2.pgn = g.pgn ++ s := by
  intro fuel
  induction fuel with
  | zero =>
    intro players g
    exact ⟨"", (String.append_empty _).symm⟩
  | succ n ih =>
    intro players g
    unfold maybe_play_system_move
    cases hply : system_ply E lib sm players g with
    | none => exact ⟨"", (String.append_empty _).symm⟩
    | some pg =>
      obtain ⟨s1, hs1⟩ := system_ply_pgn E lib sm players g pg hply
      dsimp only
      by_cases hst : (pg.2.status == "active") = true
      · rw [if_pos hst]
        obtain ⟨s2, hs2⟩ := ih pg.1 pg.2
        exact ⟨s1 ++ s2, by rw [hs2, hs1, String.append_assoc]⟩
      · rw [if_neg hst]
        exact ⟨s1, hs1⟩

theorem system_ply_inactive (E : RulesEngine) (lib : GlickoLib) (sm : SystemMover)
    (players : List Player) (g : Game) (hg : g.status ≠ "active") :
    system_ply E lib sm players g = none := by
  have h1 : (g.status != "active") = true := bne_iff_ne.mpr hg
  unfold system_ply
  rw [h1]
  rfl

theorem move_route_pgn (E : RulesEngine) (lib : GlickoLib) (sm : SystemMover)
    (fuel : Nat) (players : List Player) (p_id : Nat) (g : Game) (uci : String) :
    ∃ g3 s, (move_route E lib sm fuel players p_id (some g) uci).1.2 = some g3 ∧
      g3.pgn = g.pgn ++ s := by
  simp only [move_route]
  split
  · exact ⟨g, "", rfl, (String.append_empty _).symm⟩
  · split
    · exact ⟨g, "", rfl, (String.append_empty _).symm⟩
    · split
      · exact ⟨g, "", rfl, (String.append_empty _).symm⟩
      · split
        · exact ⟨g, "", rfl, (String.append_empty _).symm⟩
        · rename_i fs _
          try dsimp only
          split
          · obtain ⟨s2, hs2⟩ := maybe_play_system_move_pgn E lib sm fuel
              (maybe_rate lib players
                (end_game_if_needed E
                  { g with fen := fs.1, pgn := g.pgn ++ fs.2 ++ " " }).1)
              (end_game_if_needed E
                { g with fen := fs.1, pgn := g.pgn ++ fs.2 ++ " " }).1
            refine ⟨_, fs.2 ++ (" " ++ s2), rfl, ?_⟩
            rw [hs2, (end_game_fen_pgn E _).2]
            dsimp only
            simp [String.append_assoc]
          · refine ⟨_, fs.2 ++ " ", rfl, ?_⟩
            rw [(end_game_fen_pgn E _).2]
            dsimp only
            simp [String.append_assoc]

/-- C9: once a game is no longer active its position and move log are
frozen: the move route rejects it unchanged with the game-not-active error,
the automated-move step returns without acting however much fuel its chain
is given, and every move-route outcome only ever extends the move log (the
log is append-only, hence of monotonically non-decreasing length, and
constant from the moment the status leaves `active`). -/
theorem ended_game_frozen (E : RulesEngine) (lib : GlickoLib) (sm : SystemMover)
    (fuel : Nat) (players : List Player) (p_id : Nat) (g : Game) (uci : String)
    (hg : g.status ≠ "active") :
    (move_route E lib sm fuel players p_id (some g) uci =
      ((players, some g), Except.error MoveError.gameNotActive)) ∧
    (maybe_play_system_move E lib sm fuel players g = (players, g)) ∧
    (∀ (g2 : Game) (players2 : List Player) (uci2 : String),
      ∃ g3 s, (move_route E lib sm fuel players2 p_id (some g2) uci2).1.2 = some g3 ∧
        g3.pgn = g2.pgn ++ s) := by
  have h1 : (g.status != "active") = true := bne_iff_ne.mpr hg
  refine ⟨?_, ?_, ?_⟩
  · simp [move_route, h1]
  · cases fuel with
    | zero => rfl
    | succ n =>
      unfold maybe_play_system_move
      rw [system_ply_inactive E lib sm players g hg]
  · intro g2 players2 uci2
    exact move_route_pgn E lib sm fuel players2 p_id g2 uci2

theorem ended_game_frozen_witness :
    endedGame.status ≠ "active" ∧
    ((move_route (constEngine startFlags) idGlicko noMover 2 [alice, bob] 1
        (some endedGame) "e2e4" =
      (([alice, bob], some endedGame), Except.error MoveError.gameNotActive)) ∧
    (maybe_play_system_move (constEngine startFlags) idGlicko noMover 2
        [alice, bob] endedGame = ([alice, bob], endedGame)) ∧
    (∀ (g2 : Game) (players2 : List Player) (uci2 : String),
      ∃ g3 s, (move_route (constEngine startFlags) idGlicko noMover 2 players2 1
          (some g2) uci2).1.2 = some g3 ∧
        g3.pgn = g2.pgn ++ s)) :=
  ⟨by decide,
    ended_game_frozen (constEngine startFlags) idGlicko noMover 2 [alice, bob] 1
      endedGame "e2e4" (by decide)⟩

/-- `models.py`, `Player.ensure_api_key`: assigns a fresh token when the
stored key is falsy (`None` or empty).  The generated `secrets.token_hex(32)`
value is the `key` parameter. -/
def ensure_api_key (key : String) (p : Player) : Player :=
  if truthyOptStr p.api_key then p else { p with api_key := some key }

/-- The relational store visible to the matchmaking service: the two tables
and the autoincrement counters that hand out primary keys on insert. -/
structure DB where
  players : List Player
  games : List Game
  nextPlayerId : Nat
  nextGameId : Nat
deriving Repr, DecidableEq

/-- In-memory queues of `MatchmakingService`. -/
structure MMState where
  ranked_q : List Nat
  free_q : List Nat
deriving Repr, DecidableEq

/-- The JSON structure returned by `MatchmakingService.enqueue`. -/
structure EnqueueResult where
  status : String
  game_id : Option Nat
  ranked : Bool
  vs_system : Bool
deriving Repr, DecidableEq

/-- The `Game(...)` row built by `enqueue`: start position, empty move log,
explicit active status, defaults elsewhere. -/
def newGameRow (gid : Nat) (ranked : Bool) (tc : String) (white black : Nat) : Game :=
  { id := gid, ranked := ranked, time_control := tc, white_id := some white,
    black_id := some black, fen := "startpos", pgn := "", status := "active",
    result := none, end_reason := none }

/-- The `Player(...)` row built for the auto-created system bot: fixed name,
email and bot flag, model defaults for the rating fields, no key yet. -/
def freshBot (pid : Nat) (ph : String) : Player :=
  { id := pid, email := "system@local", name := "Stockfish", password_hash := ph,
    is_bot := true, api_key := none, rating := 1500, rd := 350, vol := 6 / 100,
    wins := 0, losses := 0, draws := 0 }

/-- `matchmaking_service.py`, `MatchmakingService.enqueue`: the vs-system
branch finds (or creates and persists) the first bot row and immediately
creates an active game against it with randomized colors; the PvP branch
absorbs duplicate requests, appends to the selected queue, and when the
queue holds two or more entries pops the two oldest and creates their game
(randomized colors), otherwise reports waiting.  `coin` is the
`random.random() < 0.5` draw, `ph` the bot's password hash and `key` its
generated api key, `tc` the configured default time control. -/
def enqueue (st : MMState) (db : DB) (tc ph key : String) (coin : Bool)
    (player_id : Nat) (ranked vs_system : Bool) : MMState × DB × EnqueueResult :=
  if vs_system then
    let dbBot : DB × Player :=
      match db.players.find? (fun p => p.is_bot) with
      | some b => (db, b)
      | none =>
        let b := ensure_api_key key (freshBot db.nextPlayerId ph)
        ({ db with players := db.players ++ [b],
                   nextPlayerId := db.nextPlayerId + 1 }, b)
    let db1 := dbBot.1
    let bot := dbBot.2
    let wb := if coin then (player_id, bot.id) else (bot.id, player_id)
    let g := newGameRow db1.nextGameId ranked tc wb.1 wb.2
    (st,
     { db1 with games := db1.games ++ [g], nextGameId := db1.nextGameId + 1 },
     { status := "active", game_id := some g.id, ranked := ranked, vs_system := true })
  else
    let q := if ranked then st.ranked_q else st.free_q
    if player_id ∈ q then
      (st, db,
       { status := "waiting", game_id := none, ranked := ranked, vs_system := false })
    else
      let q1 := q ++ [player_id]
      if 2 ≤ q1.length then
        let p1 := q1.headD 0
        let p2 := (q1.drop 1).headD 0
        let wb := if coin then (p1, p2) else (p2, p1)
        let g := newGameRow db.nextGameId ranked tc wb.1 wb.2
        let st1 := if ranked then { st with ranked_q := q1.drop 2 }
          else { st with free_q := q1.drop 2 }
        (st1,
         { db with games := db.games ++ [g], nextGameId := db.nextGameId + 1 },
         { status := "active", game_id := some g.id, ranked := ranked,
           vs_system := false })
      else
        let st1 := if ranked then { st with ranked_q := q1 }
          else { st with free_q := q1 }
        (st1, db,
         { status := "waiting", game_id := none, ranked := ranked, vs_system := false })

/-- C6: a participant already waiting in the target queue is not enqueued
again: the duplicate call answers waiting and leaves both queues (order
included) and the database untouched. -/
theorem enqueue_duplicate_noop (st : MMState) (db : DB) (tc ph key : String)
    (coin : Bool) (player_id : Nat) (ranked : Bool)
    (hin : player_id ∈ (if ranked then st.ranked_q else st.free_q)) :
    enqueue st db tc ph key coin player_id ranked false =
      (st, db,
       { status := "waiting", game_id := none, ranked := ranked,
         vs_system := false }) := by
  cases ranked <;> simp at hin <;> simp [enqueue, hin]

theorem enqueue_duplicate_noop_witness :
    (1 : Nat) ∈ (if true then [1, 3] else ([] : List Nat)) ∧
    enqueue { ranked_q := [1, 3], free_q := [] }
        { players := [alice, bob], games := [], nextPlayerId := 3, nextGameId := 1 }
        "10+0" "ph" "key" true 1 true false =
      ({ ranked_q := [1, 3], free_q := [] },
       { players := [alice, bob], games := [], nextPlayerId := 3, nextGameId := 1 },
       { status := "waiting", game_id := none, ranked := true, vs_system := false }) :=
  ⟨by decide,
    enqueue_duplicate_noop { ranked_q := [1, 3], free_q := [] }
      { players := [alice, bob], games := [], nextPlayerId := 3, nextGameId := 1 }
      "10+0" "ph" "key" true 1 true (by decide)⟩

/-- C5: a PvP enqueue of a participant not yet queued appends them to the
queue selected by the ranked flag; if the queue then holds at least two
entries the two oldest are popped in FIFO order and an active game is
created whose two slots are exactly those two participants with the first
mover drawn between them by the coin, and the call reports the match;
otherwise the call reports waiting with no game. -/
theorem enqueue_pvp_spec (st : MMState) (db : DB) (tc ph key : String)
    (coin : Bool) (player_id : Nat) (ranked : Bool)
    (hnot : player_id ∉ (if ranked then st.ranked_q else st.free_q)) :
    ((if ranked then st.ranked_q else st.free_q) = [] →
      enqueue st db tc ph key coin player_id ranked false =
        ((if ranked then { st with ranked_q := [player_id] }
          else { st with free_q := [player_id] }), db,
         { status := "waiting", game_id := none, ranked := ranked,
           vs_system := false })) ∧
    (∀ p1 qtl, (if ranked then st.ranked_q else st.free_q) = p1 :: qtl →
      enqueue st db tc ph key coin player_id ranked false =
        ((if ranked then { st with ranked_q := (qtl ++ [player_id]).drop 1 }
          else { st with free_q := (qtl ++ [player_id]).drop 1 }),
         { db with
            games := db.games ++
              [newGameRow db.nextGameId ranked tc
                (if coin then p1 else (qtl ++ [player_id]).headD 0)
                (if coin then (qtl ++ [player_id]).headD 0 else p1)],
            nextGameId := db.nextGameId + 1 },
         { status := "active", game_id := some db.nextGameId, ranked := ranked,
           vs_system := false })) := by
  constructor
  · intro hq
    cases ranked <;> simp at hnot hq <;>
      cases coin <;> simp [enqueue, hnot, hq]
  · intro p1 qtl hq
    cases ranked <;> simp at hnot hq <;> rw [hq] at hnot <;>
      simp only [List.mem_cons, not_or] at hnot <;>
      cases coin <;>
        simp [enqueue, hnot.1, hnot.2, hq, newGameRow, Nat.le_add_left]

/-- A queue fixture: participant 4 already waits in the ranked queue. -/
def mmQ4 : MMState := { ranked_q := [4], free_q := [] }

/-- An empty database fixture. -/
def emptyDB : DB := { players := [], games := [], nextPlayerId := 1, nextGameId := 1 }

theorem enqueue_pvp_spec_witness :
    (7 : Nat) ∉ (if true then mmQ4.ranked_q else mmQ4.free_q) ∧
    (((if true then mmQ4.ranked_q else mmQ4.free_q) = [] →
      enqueue mmQ4 emptyDB "10+0" "ph" "key" true 7 true false =
        ((if true then { mmQ4 with ranked_q := [7] }
          else { mmQ4 with free_q := [7] }), emptyDB,
         { status := "waiting", game_id := none, ranked := true,
           vs_system := false })) ∧
    (∀ p1 qtl, (if true then mmQ4.ranked_q else mmQ4.free_q) = p1 :: qtl →
      enqueue mmQ4 emptyDB "10+0" "ph" "key" true 7 true false =
        ((if true then { mmQ4 with ranked_q := (qtl ++ [7]).drop 1 }
          else { mmQ4 with free_q := (qtl ++ [7]).drop 1 }),
         { emptyDB with
            games := emptyDB.games ++
              [newGameRow emptyDB.nextGameId true "10+0"
                (if true then p1 else (qtl ++ [7]).headD 0)
                (if true then (qtl ++ [7]).headD 0 else p1)],
            nextGameId := emptyDB.nextGameId + 1 },
         { status := "active", game_id := some emptyDB.nextGameId, ranked := true,
           vs_system := false }))) :=
  ⟨by decide, enqueue_pvp_spec mmQ4 emptyDB "10+0" "ph" "key" true 7 true (by decide)⟩

/-- C7: a vs-system enqueue answers a match immediately on the first call —
never waiting — without touching either queue; the created game is active,
holds the requester in one slot and a bot participant of the store in the
other, with the colors decided by the coin. -/
theorem enqueue_vs_system_spec (st : MMState) (db : DB) (tc ph key : String)
    (coin : Bool) (player_id : Nat) (ranked : Bool) :
    (enqueue st db tc ph key coin player_id ranked true).1 = st ∧
    (enqueue st db tc ph key coin player_id ranked true).2.2.status = "active" ∧
    ∃ bot g,
      bot ∈ (enqueue st db tc ph key coin player_id ranked true).2.1.players ∧
      bot.is_bot = true ∧
      (enqueue st db tc ph key coin player_id ranked true).2.1.games =
        db.games ++ [g] ∧
      (enqueue st db tc ph key coin player_id ranked true).2.2.game_id = some g.id ∧
      g.status = "active" ∧
      ((g.white_id = some player_id ∧ g.black_id = some bot.id) ∨
        (g.white_id = some bot.id ∧ g.black_id = some player_id)) := by
  cases hfind : db.players.find? (fun p => p.is_bot) with
  | some b =>
    have hmem : b ∈ db.players := List.mem_of_find?_eq_some hfind
    have hisbot : b.is_bot = true := List.find?_some hfind
    cases coin
    · exact ⟨by simp [enqueue, hfind], by simp [enqueue, hfind],
        b, newGameRow db.nextGameId ranked tc b.id player_id,
        by simp [enqueue, hfind, hmem], hisbot,
        by simp [enqueue, hfind], by simp [enqueue, hfind, newGameRow],
        rfl, Or.inr ⟨rfl, rfl⟩⟩
    · exact ⟨by simp [enqueue, hfind], by simp [enqueue, hfind],
        b, newGameRow db.nextGameId ranked tc player_id b.id,
        by simp [enqueue, hfind, hmem], hisbot,
        by simp [enqueue, hfind], by simp [enqueue, hfind, newGameRow],
        rfl, Or.inl ⟨rfl, rfl⟩⟩
  | none =>
    cases coin
    · exact ⟨by simp [enqueue, hfind], by simp [enqueue, hfind],
        ensure_api_key key (freshBot db.nextPlayerId ph),
        newGameRow db.nextGameId ranked tc
          (ensure_api_key key (freshBot db.nextPlayerId ph)).id player_id,
        by simp [enqueue, hfind], rfl,
        by simp [enqueue, hfind], by simp [enqueue, hfind, newGameRow],
        rfl, Or.inr ⟨rfl, rfl⟩⟩
    · exact ⟨by simp [enqueue, hfind], by simp [enqueue, hfind],
        ensure_api_key key (freshBot db.nextPlayerId ph),
        newGameRow db.nextGameId ranked tc player_id
          (ensure_api_key key (freshBot db.nextPlayerId ph)).id,
        by simp [enqueue, hfind], rfl,
        by simp [enqueue, hfind], by simp [enqueue, hfind, newGameRow],
        rfl, Or.inl ⟨rfl, rfl⟩⟩

/-- C10: a vs-system enqueue finding no bot in the player store persists a
new bot account — name Stockfish, email system@local, bot flag set, an api
key assigned — before creating the game; afterwards the store holds a bot
and the created game's opposite slot is that bot. -/
theorem enqueue_creates_bot (st : MMState) (db : DB) (tc ph key : String)
    (coin : Bool) (player_id : Nat) (ranked : Bool)
    (hnobot : db.players.find? (fun p => p.is_bot) = none) :
    (enqueue st db tc ph key coin player_id ranked true).2.1.players =
      db.players ++ [ensure_api_key key (freshBot db.nextPlayerId ph)] ∧
    (ensure_api_key key (freshBot db.nextPlayerId ph)).name = "Stockfish" ∧
    (ensure_api_key key (freshBot db.nextPlayerId ph)).email = "system@local" ∧
    (ensure_api_key key (freshBot db.nextPlayerId ph)).is_bot = true ∧
    (ensure_api_key key (freshBot db.nextPlayerId ph)).api_key = some key ∧
    (∃ p, p ∈ (enqueue st db tc ph key coin player_id ranked true).2.1.players ∧
      p.is_bot = true) ∧
    ∃ g, (enqueue st db tc ph key coin player_id ranked true).2.1.games =
        db.games ++ [g] ∧
      ((g.white_id = some player_id ∧
          g.black_id = some (ensure_api_key key (freshBot db.nextPlayerId ph)).id) ∨
        (g.white_id = some (ensure_api_key key (freshBot db.nextPlayerId ph)).id ∧
          g.black_id = some player_id)) := by
  refine ⟨by simp [enqueue, hnobot], rfl, rfl, rfl, rfl,
    ⟨ensure_api_key key (freshBot db.nextPlayerId ph),
      by simp [enqueue, hnobot], rfl⟩, ?_⟩
  cases coin
  · exact ⟨newGameRow db.nextGameId ranked tc
      (ensure_api_key key (freshBot db.nextPlayerId ph)).id player_id,
      by simp [enqueue, hnobot], Or.inr ⟨rfl, rfl⟩⟩
  · exact ⟨newGameRow db.nextGameId ranked tc player_id
      (ensure_api_key key (freshBot db.nextPlayerId ph)).id,
      by simp [enqueue, hnobot], Or.inl ⟨rfl, rfl⟩⟩

/-- A database fixture holding only the two human fixtures. -/
def humansDB : DB :=
  { players := [alice, bob], games := [], nextPlayerId := 3, nextGameId := 1 }

theorem enqueue_creates_bot_witness :
    humansDB.players.find? (fun p => p.is_bot) = none ∧
    ((enqueue mmQ4 humansDB "10+0" "ph" "key" true 1 false true).2.1.players =
      humansDB.players ++ [ensure_api_key "key" (freshBot humansDB.nextPlayerId "ph")] ∧
    (ensure_api_key "key" (freshBot humansDB.nextPlayerId "ph")).name = "Stockfish" ∧
    (ensure_api_key "key" (freshBot humansDB.nextPlayerId "ph")).email = "system@local" ∧
    (ensure_api_key "key" (freshBot humansDB.nextPlayerId "ph")).is_bot = true ∧
    (ensure_api_key "key" (freshBot humansDB.nextPlayerId "ph")).api_key = some "key" ∧
    (∃ p, p ∈ (enqueue mmQ4 humansDB "10+0" "ph" "key" true 1 false true).2.1.players ∧
      p.is_bot = true) ∧
    ∃ g, (enqueue mmQ4 humansDB "10+0" "ph" "key" true 1 false true).2.1.games =
        humansDB.games ++ [g] ∧
      ((g.white_id = some 1 ∧
          g.black_id = some (ensure_api_key "key" (freshBot humansDB.nextPlayerId "ph")).id) ∨
        (g.white_id = some (ensure_api_key "key" (freshBot humansDB.nextPlayerId "ph")).id ∧
          g.black_id = some 1))) :=
  ⟨by decide,
    enqueue_creates_bot mmQ4 humansDB "10+0" "ph" "key" true 1 false (by decide)⟩

/-- Observer connections per game: the `defaultdict(set)` of `ws_hub.py` as
an association list from game id to the room's connection handles. -/
structure Hub where
  rooms : List (Nat × List Nat)
deriving Repr, DecidableEq

/-- The connection set of a game; a missing entry reads as empty. -/
def Hub.getRoom (h : Hub) (gid : Nat) : List Nat :=
  match h.rooms.find? (fun r => r.1 == gid) with
  | some r => r.2
  | none => []

/-- Store a game's connection set. -/
def Hub.setRoom (h : Hub) (gid : Nat) (conns : List Nat) : Hub :=
  { rooms := h.rooms.filter (fun r => r.1 != gid) ++ [(gid, conns)] }

/-- Remove a game's entry (`self.rooms.pop(game_id, None)`). -/
def Hub.dropRoom (h : Hub) (gid : Nat) : Hub :=
  { rooms := h.rooms.filter (fun r => r.1 != gid) }

/-- `ws_hub.py`, `Hub.leave`: discard the connection from the room (closing
the socket is a transport side effect outside the model) and pop the room
once it is empty. -/
def Hub.leave (h : Hub) (gid cid : Nat) : Hub :=
  let conns := (h.getRoom gid).filter (fun c => c != cid)
  if conns.isEmpty then h.dropRoom gid else h.setRoom gid conns

/-- `ws_hub.py`, `Hub.broadcast`: walk a snapshot of the room attempting
delivery to each connection (`send c` says whether `send_json` to `c`
succeeds), collect the failed ones, and only after that iteration remove
each failed connection via `leave`.  Returns the hub afterwards together
with the connections that received the payload, in delivery order. -/
def Hub.broadcast (h : Hub) (gid : Nat) (send : Nat → Bool) : Hub × List Nat :=
  let conns := h.getRoom gid
  let dead := conns.filter (fun c => !send c)
  let h1 := dead.foldl (fun acc c => acc.leave gid c) h
  (h1, conns.filter (fun c => send c))

theorem find?_key_filter_self (l : List (Nat × List Nat)) (gid : Nat) :
    (l.filter (fun r => r.1 != gid)).find? (fun r => r.1 == gid) = none := by
  apply List.find?_eq_none.mpr
  intro x hx
  have hkeep := (List.mem_filter.mp hx).2
  simpa using hkeep

theorem find?_key_filter_other (l : List (Nat × List Nat)) (gid gid2 : Nat)
    (hne : gid2 ≠ gid) :
    (l.filter (fun r => r.1 != gid)).find? (fun r => r.1 == gid2) =
      l.find? (fun r => r.1 == gid2) := by
  induction l with
  | nil => rfl
  | cons r t ih =>
    by_cases hg : r.1 = gid <;> by_cases h2 : r.1 = gid2
    · exact absurd (h2 ▸ hg) hne
    · simp [List.filter_cons, List.find?_cons, hg, h2, hne, Ne.symm hne, ih]
    · simp [List.filter_cons, List.find?_cons, hg, h2, hne, Ne.symm hne, ih]
    · simp [List.filter_cons, List.find?_cons, hg, h2, hne, Ne.symm hne, ih]

theorem getRoom_setRoom_self (h : Hub) (gid : Nat) (conns : List Nat) :
    (h.setRoom gid conns).getRoom gid = conns := by
  unfold Hub.getRoom Hub.setRoom
  rw [List.find?_append, find?_key_filter_self]
  simp

theorem getRoom_setRoom_other (h : Hub) (gid gid2 : Nat) (conns : List Nat)
    (hne : gid2 ≠ gid) :
    (h.setRoom gid conns).getRoom gid2 = h.getRoom gid2 := by
  unfold Hub.getRoom Hub.setRoom
  rw [List.find?_append, find?_key_filter_other h.rooms gid gid2 hne]
  cases hf : h.rooms.find? (fun r => r.1 == gid2) with
  | some r => simp
  | none =>
    have hgg : (gid == gid2) = false := by
      simp [Ne.symm hne]
    simp [List.find?_cons, hgg]

theorem getRoom_dropRoom_self (h : Hub) (gid : Nat) :
    (h.dropRoom gid).getRoom gid = [] := by
  unfold Hub.getRoom Hub.dropRoom
  rw [find?_key_filter_self]

theorem getRoom_dropRoom_other (h : Hub) (gid gid2 : Nat) (hne : gid2 ≠ gid) :
    (h.dropRoom gid).getRoom gid2 = h.getRoom gid2 := by
  unfold Hub.getRoom Hub.dropRoom
  rw [find?_key_filter_other h.rooms gid gid2 hne]

theorem getRoom_leave_self (h : Hub) (gid cid : Nat) :
    (h.leave gid cid).getRoom gid = (h.getRoom gid).filter (fun c => c != cid) := by
  unfold Hub.leave
  by_cases he : ((h.getRoom gid).filter (fun c => c != cid)).isEmpty = true
  · rw [if_pos he, getRoom_dropRoom_self, List.isEmpty_iff.mp he]
  · rw [if_neg he, getRoom_setRoom_self]

theorem getRoom_leave_other (h : Hub) (gid gid2 cid : Nat) (hne : gid2 ≠ gid) :
    (h.leave gid cid).getRoom gid2 = h.getRoom gid2 := by
  unfold Hub.leave
  by_cases he : ((h.getRoom gid).filter (fun c => c != cid)).isEmpty = true
  · rw [if_pos he, getRoom_dropRoom_other h gid gid2 hne]
  · rw [if_neg he, getRoom_setRoom_other h gid gid2 _ hne]

theorem getRoom_foldl_leave (gid : Nat) (ds : List Nat) (h : Hub) :
    (ds.foldl (fun acc c => acc.leave gid c) h).getRoom gid =
      (h.getRoom gid).filter (fun c => !ds.contains c) := by
  induction ds generalizing h with
  | nil => simp
  | cons d t ih =>
    simp only [List.foldl_cons]
    rw [ih, getRoom_leave_self, List.filter_filter]
    apply List.filter_congr
    intro c _
    by_cases hcd : c = d <;> simp [List.contains_cons, hcd, Bool.and_comm]

theorem getRoom_foldl_leave_other (gid gid2 : Nat) (ds : List Nat) (h : Hub)
    (hne : gid2 ≠ gid) :
    (ds.foldl (fun acc c => acc.leave gid c) h).getRoom gid2 = h.getRoom gid2 := by
  induction ds generalizing h with
  | nil => rfl
  | cons d t ih =>
    simp only [List.foldl_cons]
    rw [ih, getRoom_leave_other h gid gid2 d hne]

/-- C8: publishing to a game attempts delivery to every connection
subscribed at publish time — each one either receives the event or is
collected as failed, and a failure never suppresses delivery to another
connection; after the iteration exactly the failed connections are
unsubscribed (the surviving room is the successful ones, in order), and
rooms of other games are untouched. -/
theorem broadcast_spec (h : Hub) (gid : Nat) (send : Nat → Bool) :
    (h.broadcast gid send).2 = (h.getRoom gid).filter (fun c => send c) ∧
    (∀ c, c ∈ h.getRoom gid → send c = true → c ∈ (h.broadcast gid send).2) ∧
    (∀ c, c ∈ h.getRoom gid →
      c ∈ (h.broadcast gid send).2 ∨
        c ∈ (h.getRoom gid).filter (fun c => !send c)) ∧
    (h.broadcast gid send).1.getRoom gid =
      (h.getRoom gid).filter (fun c => send c) ∧
    (∀ gid2, gid2 ≠ gid → (h.broadcast gid send).1.getRoom gid2 = h.getRoom gid2) := by
  refine ⟨rfl, ?_, ?_, ?_, ?_⟩
  · intro c hc hs
    exact List.mem_filter.mpr ⟨hc, hs⟩
  · intro c hc
    by_cases hs : send c = true
    · exact Or.inl (List.mem_filter.mpr ⟨hc, hs⟩)
    · exact Or.inr (List.mem_filter.mpr ⟨hc, by simp [hs]⟩)
  · show (((h.getRoom gid).filter (fun c => !send c)).foldl
        (fun acc c => acc.leave gid c) h).getRoom gid = _
    rw [getRoom_foldl_leave]
    apply List.filter_congr
    intro c hc
    by_cases hs : send c = true
    · have hnc : ((h.getRoom gid).filter (fun c => !send c)).contains c = false := by
        rw [Bool.eq_false_iff]
        intro hcon
        have hmem := List.elem_iff.mp hcon
        have := (List.mem_filter.mp hmem).2
        simp [hs] at this
      rw [hnc, hs]
      rfl
    · have hmem : c ∈ (h.getRoom gid).filter (fun c => !send c) :=
        List.mem_filter.mpr ⟨hc, by simp [hs]⟩
      have hcc : ((h.getRoom gid).filter (fun c => !send c)).contains c = true :=
        List.elem_iff.mpr hmem
      rw [hcc]
      simp [hs]
  · intro gid2 hne
    show (((h.getRoom gid).filter (fun c => !send c)).foldl
        (fun acc c => acc.leave gid c) h).getRoom gid2 = _
    exact getRoom_foldl_leave_other gid gid2 _ h hne

end ChessArena
